import Mathlib

/-
Shallow embedding of the Die component of
src/projects/dice_simulator/src/dice_simulator/main.py.

Python strings are modelled as lists of characters.  The embedding covers
ASCII inputs, on which the Python operations str.strip, str.upper and
str.isdigit agree with the character-level definitions below.  Exceptions
are modelled with Except String carrying the exact message the Python code
raises.  The entropy source secrets.randbelow is modelled by an explicitly
passed function together with the bound check secrets.randbelow performs.
-/

/-- The characters stripped by Python str.strip on ASCII input. -/
def isPySpace (c : Char) : Bool :=
  c = ' ' || c = '\t' || c = '\n' || c = '\r' || c = '\x0b' || c = '\x0c'

/-- Python s.strip : remove leading and trailing whitespace. -/
def pyStrip (s : List Char) : List Char :=
  ((s.dropWhile isPySpace).reverse.dropWhile isPySpace).reverse

/-- Python s.upper on ASCII input. -/
def pyUpper (s : List Char) : List Char :=
  s.map Char.toUpper

/-- Python s.startswith applied to the single character D. -/
def startsWithD (s : List Char) : Bool :=
  match s with
  | [] => false
  | c :: _ => c == 'D'

/-- Python s.isdigit on ASCII input: non-empty and all decimal digits. -/
def pyIsDigit (s : List Char) : Bool :=
  !s.isEmpty && s.all Char.isDigit

/-- Python int(s) for a string of decimal digits (base 10). -/
def parseDigits (s : List Char) : Nat :=
  s.foldl (fun a c => a * 10 + (c.toNat - '0'.toNat)) 0

/-- The Die dataclass: a single integer field sides. -/
structure Die where
  sides : Int
deriving DecidableEq

/-- Die(sides): dataclass construction running the post-init validation
from main.py lines 20-25.  Raising ValueError is modelled as Except.error
with the raised message. -/
def mkDie (sides : Int) : Except String Die :=
  if sides < 1 then Except.error "Number of sides must be at least 1."
  else Except.ok ⟨sides⟩

/-- The default value of the sides parameter of Die (main.py line 18). -/
def dieDefaultSides : Int := 6

/-- secrets.randbelow(n): raises ValueError for a non-positive bound,
otherwise returns the value produced by the entropy source, which for a
positive bound lies in the half-open range from 0 up to n. -/
def randbelow (draw : Int → Int) (n : Int) : Except String Int :=
  if n ≤ 0 then Except.error "Upper bound must be positive."
  else Except.ok (draw n)

/-- Die.roll (main.py line 42): secrets.randbelow(self.sides) + 1, with the
entropy source passed explicitly. -/
def Die.roll (draw : Int → Int) (d : Die) : Except String Int :=
  (randbelow draw d.sides).map (fun k => k + 1)

/-- Die.from_string (main.py lines 44-55): reject the empty input, then
strip and upper-case, check the D-digits format, and delegate the parsed
value to the dataclass constructor. -/
def from_string (s : List Char) : Except String Die :=
  if s.isEmpty then Except.error "Input string cannot be empty."
  else if !startsWithD (pyUpper (pyStrip s)) ||
          !pyIsDigit ((pyUpper (pyStrip s)).drop 1) then
    Except.error "Invalid dice format. Must be like 'D6' or 'D20'."
  else
    mkDie (parseDigits ((pyUpper (pyStrip s)).drop 1))

/-- Contract of the injected uniform integer source, as secrets.randbelow
provides it: for every positive bound n the drawn value lies in [0, n). -/
def UniformSource (draw : Int → Int) : Prop :=
  ∀ n : Int, 1 ≤ n → 0 ≤ draw n ∧ draw n < n

/-- Helper: any Die produced by mkDie satisfies 1 ≤ sides. -/
theorem mkDie_ok_sides (n : Int) (d : Die) (h : mkDie n = Except.ok d) :
    1 ≤ d.sides := by
  unfold mkDie at h
  split at h
  · exact Except.noConfusion h
  · injection h with h'
    subst h'
    show (1 : Int) ≤ n
    omega

/-- Claim C1: for every Die with sides at least 1 and every entropy source
meeting the uniform contract, roll succeeds with the drawn value plus 1,
and that value v satisfies 1 ≤ v ≤ sides. -/
theorem roll_in_range (draw : Int → Int) (d : Die)
    (hc : UniformSource draw) (hs : 1 ≤ d.sides) :
    Die.roll draw d = Except.ok (draw d.sides + 1) ∧
    1 ≤ draw d.sides + 1 ∧ draw d.sides + 1 ≤ d.sides := by
  obtain ⟨h0, h1⟩ := hc d.sides hs
  refine ⟨?_, by omega, by omega⟩
  simp [Die.roll, randbelow, show ¬ d.sides ≤ 0 by omega, Except.map]

/-- Witness for C1 at a constant-zero source and a 6-sided die. -/
theorem roll_in_range_witness :
    Die.roll (fun _ => 0) ⟨6⟩ = Except.ok ((fun _ : Int => (0 : Int)) 6 + 1) ∧
    1 ≤ (fun _ : Int => (0 : Int)) 6 + 1 ∧
    (fun _ : Int => (0 : Int)) 6 + 1 ≤ (6 : Int) :=
  roll_in_range (fun _ => 0) ⟨6⟩
    (fun n hn => ⟨le_refl 0, show (0 : Int) < n by omega⟩) (by decide)

/-- Claim C2: direct construction fails with the at-least-1 message for every
sides below 1, succeeds and stores sides for every sides at least 1, and the
sides parameter defaults to 6. -/
theorem mkDie_spec :
    (∀ n : Int, n < 1 →
      mkDie n = Except.error "Number of sides must be at least 1.") ∧
    (∀ n : Int, 1 ≤ n → mkDie n = Except.ok ⟨n⟩) ∧
    dieDefaultSides = 6 ∧ mkDie dieDefaultSides = Except.ok ⟨6⟩ := by
  refine ⟨?_, ?_, rfl, rfl⟩
  · intro n h
    simp [mkDie, h]
  · intro n h
    simp [mkDie, show ¬ n < 1 by omega]

/-- Witness for C2 at sides 0 and sides 6. -/
theorem mkDie_spec_witness :
    mkDie 0 = Except.error "Number of sides must be at least 1." ∧
    mkDie 6 = Except.ok ⟨6⟩ :=
  ⟨mkDie_spec.1 0 (by decide), mkDie_spec.2.1 6 (by decide)⟩

/-- Claim C7: roll invokes the source with the exact bound sides and returns
the drawn value plus 1; a source fixed to 4 with sides 6 yields 5, and a
source fixed to 9 with sides 20 yields 10. -/
theorem roll_uses_exact_bound :
    (∀ (draw : Int → Int) (d : Die), 1 ≤ d.sides →
      Die.roll draw d = Except.ok (draw d.sides + 1)) ∧
    Die.roll (fun _ => 4) ⟨6⟩ = Except.ok 5 ∧
    Die.roll (fun _ => 9) ⟨20⟩ = Except.ok 10 := by
  refine ⟨?_, by rfl, by rfl⟩
  intro draw d hs
  simp [Die.roll, randbelow, show ¬ d.sides ≤ 0 by omega, Except.map]

/-- Witness for C7 at the constant-4 source and a 6-sided die. -/
theorem roll_uses_exact_bound_witness :
    Die.roll (fun _ => 4) ⟨6⟩ =
      Except.ok ((fun _ : Int => (4 : Int)) 6 + 1) :=
  roll_uses_exact_bound.1 (fun _ => 4) ⟨6⟩ (by decide)

/-- Claim C9: for every Die satisfying the invariant sides at least 1, roll
never fails: the error branch of the underlying randbelow is unreachable. -/
theorem roll_never_fails (draw : Int → Int) (d : Die) (hs : 1 ≤ d.sides) :
    ∀ m : String, Die.roll draw d ≠ Except.error m := by
  intro m
  simp [Die.roll, randbelow, show ¬ d.sides ≤ 0 by omega, Except.map]

/-- Witness for C9 at a constant-zero source and a 6-sided die. -/
theorem roll_never_fails_witness :
    Die.roll (fun _ => 0) ⟨6⟩ ≠ Except.error "Upper bound must be positive." :=
  roll_never_fails (fun _ => 0) ⟨6⟩ (by decide) "Upper bound must be positive."

/-- Claim C10: a 1-sided die is accepted by construction, and rolling it is
deterministic: any source meeting the uniform contract must return 0 below
the bound 1, so roll always returns exactly 1. -/
theorem one_sided_die (draw : Int → Int) (hc : UniformSource draw) :
    mkDie 1 = Except.ok ⟨1⟩ ∧ Die.roll draw ⟨1⟩ = Except.ok 1 := by
  obtain ⟨h0, h1⟩ := hc 1 (by omega)
  have hz : draw 1 = 0 := by omega
  constructor
  · rfl
  · simp [Die.roll, randbelow, hz, Except.map]

/-- Witness for C10 at the constant-zero source. -/
theorem one_sided_die_witness :
    mkDie 1 = Except.ok ⟨1⟩ ∧
    Die.roll (fun _ => 0) ⟨1⟩ = Except.ok 1 :=
  one_sided_die (fun _ => 0)
    (fun n hn => ⟨le_refl 0, show (0 : Int) < n by omega⟩)

/-- Claim C3: whenever the trimmed, upper-cased input is the character D
followed by one or more decimal digits of value at least 1, from_string
succeeds with that value; in particular the strings D6, d20 and
(space)(space)D12(space)(space) give dice with sides 6, 20 and 12. -/
theorem from_string_grammar_ok :
    (∀ (s ds : List Char), pyUpper (pyStrip s) = 'D' :: ds →
      pyIsDigit ds = true → 1 ≤ parseDigits ds →
      from_string s = Except.ok ⟨(parseDigits ds : Int)⟩) ∧
    from_string ['D', '6'] = Except.ok ⟨6⟩ ∧
    from_string ['d', '2', '0'] = Except.ok ⟨20⟩ ∧
    from_string [' ', ' ', 'D', '1', '2', ' ', ' '] = Except.ok ⟨12⟩ := by
  refine ⟨?_, by rfl, by rfl, by rfl⟩
  intro s ds ht hd hv
  have hne : s.isEmpty = false := by
    cases s with
    | nil => simp [pyStrip, pyUpper] at ht
    | cons a l => rfl
  simp [from_string, hne, ht, startsWithD, hd, mkDie,
    show ¬ ((parseDigits ds : Int) < 1) by exact_mod_cast not_lt.mpr hv]

/-- Witness for C3 at the input D6. -/
theorem from_string_grammar_ok_witness :
    from_string ['D', '6'] = Except.ok ⟨(parseDigits ['6'] : Int)⟩ :=
  from_string_grammar_ok.1 ['D', '6'] ['6'] (by decide) (by decide) (by decide)

/-- Claim C4 counterexample: the one-space string has an empty trimmed form,
yet from_string fails with the format error, not the empty-input error,
because the code checks emptiness before stripping. -/
theorem from_string_blank_counterexample :
    pyStrip [' '] = [] ∧
    from_string [' '] =
      Except.error "Invalid dice format. Must be like 'D6' or 'D20'." ∧
    from_string [' '] ≠ Except.error "Input string cannot be empty." := by
  refine ⟨by decide, by rfl, ?_⟩
  intro h
  have := congrArg (fun e => match e with
    | Except.error m => m
    | Except.ok _ => "") h
  simp at this
  exact absurd (congrArg String.length this) (by decide)

/-- Claim C4 amended: only the genuinely empty input fails with the
empty-input message; a non-empty string whose trimmed form is empty fails
with the format error instead. -/
theorem from_string_empty_amended :
    from_string [] = Except.error "Input string cannot be empty." ∧
    (∀ s : List Char, s ≠ [] → pyStrip s = [] →
      from_string s =
        Except.error "Invalid dice format. Must be like 'D6' or 'D20'.") := by
  constructor
  · rfl
  · intro s hne hstrip
    have hne' : s.isEmpty = false := by
      cases s with
      | nil => exact absurd rfl hne
      | cons a l => rfl
    simp [from_string, hne', hstrip, pyUpper, startsWithD]

/-- Witness for C4 amended at the one-space input. -/
theorem from_string_empty_amended_witness :
    from_string [' '] =
      Except.error "Invalid dice format. Must be like 'D6' or 'D20'." :=
  from_string_empty_amended.2 [' '] (by decide) (by decide)

/-- Claim C5: for every input whose trimmed form is non-empty and whose
trimmed, upper-cased form does not match the D-digits grammar (stated as:
however it is split as D followed by a suffix, the suffix is not a
non-empty run of digits), from_string fails with the format error; in
particular for D, X6 and abc. -/
theorem from_string_format_error :
    (∀ s : List Char, pyStrip s ≠ [] →
      (∀ ds : List Char, pyUpper (pyStrip s) = 'D' :: ds →
        pyIsDigit ds = false) →
      from_string s =
        Except.error "Invalid dice format. Must be like 'D6' or 'D20'.") ∧
    from_string ['D'] =
      Except.error "Invalid dice format. Must be like 'D6' or 'D20'." ∧
    from_string ['X', '6'] =
      Except.error "Invalid dice format. Must be like 'D6' or 'D20'." ∧
    from_string ['a', 'b', 'c'] =
      Except.error "Invalid dice format. Must be like 'D6' or 'D20'." := by
  refine ⟨?_, by rfl, by rfl, by rfl⟩
  intro s hne hng
  have hne' : s.isEmpty = false := by
    cases s with
    | nil => exact absurd rfl hne
    | cons a l => rfl
  rcases ht : pyUpper (pyStrip s) with _ | ⟨c, rest⟩
  · simp [from_string, hne', ht, startsWithD]
  · by_cases hc : c = 'D'
    · subst hc
      have hrest := hng rest ht
      simp [from_string, hne', ht, startsWithD, hrest]
    · simp [from_string, hne', ht, startsWithD, hc]

/-- Witness for C5 at the input D (valid prefix, empty digit suffix). -/
theorem from_string_format_error_witness :
    from_string ['D'] =
      Except.error "Invalid dice format. Must be like 'D6' or 'D20'." :=
  from_string_format_error.1 ['D'] (by decide)
    (by
      intro ds h
      have e : pyUpper (pyStrip ['D']) = ['D'] := by decide
      rw [e] at h
      injection h with h1 h2
      subst h2
      decide)

/-- Claim C6: when the grammar matches, from_string delegates the parsed
value to the by-value constructor mkDie; in particular D0 fails with the
at-least-1 message, not the format message. -/
theorem from_string_delegates :
    (∀ (s ds : List Char), pyUpper (pyStrip s) = 'D' :: ds →
      pyIsDigit ds = true →
      from_string s = mkDie (parseDigits ds : Int)) ∧
    from_string ['D', '0'] =
      Except.error "Number of sides must be at least 1." ∧
    from_string ['D', '0'] ≠
      Except.error "Invalid dice format. Must be like 'D6' or 'D20'." := by
  refine ⟨?_, by rfl, ?_⟩
  · intro s ds ht hd
    have hne : s.isEmpty = false := by
      cases s with
      | nil => simp [pyStrip, pyUpper] at ht
      | cons a l => rfl
    simp [from_string, hne, ht, startsWithD, hd]
  · intro h
    have e : from_string ['D', '0'] =
        Except.error "Number of sides must be at least 1." := by rfl
    rw [e] at h
    injection h with h'
    exact absurd (congrArg String.length h') (by decide)

/-- Witness for C6 at the input D0. -/
theorem from_string_delegates_witness :
    from_string ['D', '0'] = mkDie (parseDigits ['0'] : Int) :=
  from_string_delegates.1 ['D', '0'] ['0'] (by decide) (by decide)

/-- Claim C8: the invariant 1 ≤ sides holds for every Die produced by either
construction path: direct construction via mkDie and parsing via
from_string.  (The embedding is pure, so a constructed value is never
mutated; roll reads sides and returns an integer, leaving the Die as is.) -/
theorem die_invariant :
    (∀ (n : Int) (d : Die), mkDie n = Except.ok d → 1 ≤ d.sides) ∧
    (∀ (s : List Char) (d : Die), from_string s = Except.ok d → 1 ≤ d.sides) := by
  refine ⟨mkDie_ok_sides, ?_⟩
  intro s d h
  rw [from_string] at h
  split at h
  · exact Except.noConfusion h
  · split at h
    · exact Except.noConfusion h
    · exact mkDie_ok_sides _ _ h

/-- Witness for C8 on both construction paths at sides 6. -/
theorem die_invariant_witness :
    (1 : Int) ≤ (Die.mk 6).sides ∧ (1 : Int) ≤ (Die.mk 6).sides :=
  ⟨die_invariant.1 6 (Die.mk 6) (by rfl),
   die_invariant.2 ['D', '6'] (Die.mk 6) (by rfl)⟩
